import Mathlib

/-!
Verification of the 2.5D tensor-parallel matmul operations in
colossalai/nn/layer/parallel_2p5d/_operation.py.

Shallow embedding conventions:
* a local tile is a dense integer matrix (Matrix (Fin a) (Fin b) ℤ);
* the d×d process grid is indexed by (row_rank, col_rank) : Fin d × Fin d;
* a sharded logical matrix is a grid of tiles (Fin d → Fin d → Tile a b),
  or equivalently a dense matrix over product index types, cut by tileOf;
* collectives are modelled by their deterministic data effect: an all-gather
  over a row group at rank (r, c) yields the list j ↦ tile r j, a broadcast
  yields the source member tile at every member, a reduce yields the sum of
  the member tiles at the destination member;
* the per-rank forward computations are transcribed from the source loop
  bodies, including the source rank-index arithmetic;
* tensor shapes, when a claim is about shapes, are lists of naturals with
  Python negative indexing modelled by negIdx; communication calls, when a
  claim is about their presence or ordering, are collected into a CommOp
  trace alongside the result.
-/

open Matrix

/-- A local tile: a dense 2D integer buffer of a fixed local shape. -/
abbrev Tile (a b : ℕ) : Type := Matrix (Fin a) (Fin b) ℤ

/-- A sharded matrix: one tile per grid coordinate (row_rank, col_rank). -/
abbrev TileGrid (d a b : ℕ) : Type := Fin d → Fin d → Tile a b

/-- The tile of the dense matrix M held by grid rank (r, c) when M is
sharded over the d×d grid: block row r, block column c. -/
def tileOf {d a b : ℕ} (M : Matrix (Fin d × Fin a) (Fin d × Fin b) ℤ) :
    TileGrid d a b :=
  fun r c => Matrix.of fun x y => M (r, x) (c, y)

/-- Reassemble a grid of tiles into the dense matrix they shard. -/
def assemble {d a b : ℕ} (T : TileGrid d a b) :
    Matrix (Fin d × Fin a) (Fin d × Fin b) ℤ :=
  Matrix.of fun p q => T p.1 q.1 p.2 q.2

/-- Data effect of a group broadcast: every member ends up holding the
source member value. -/
def broadcastFrom {d : ℕ} {α : Type} (vals : Fin d → α) (src : Fin d) :
    Fin d → α :=
  fun _member => vals src

/-- GridAddressing formula of spec section 4.1:
rank = minor_offset + dep_rank·tesseract_dim² +
       data_parallel_rank·pipeline_parallel_size·tensor_parallel_size +
       pipeline_parallel_rank·tensor_parallel_size. -/
def grid_rank (minor_offset dep_rank tesseract_dim data_parallel_rank
    pipeline_parallel_rank pipeline_parallel_size tensor_parallel_size : ℕ) : ℕ :=
  minor_offset + dep_rank * tesseract_dim ^ 2 +
    data_parallel_rank * pipeline_parallel_size * tensor_parallel_size +
    pipeline_parallel_rank * tensor_parallel_size

/-- Global rank of the grid coordinate (row_rank, col_rank) in the rank
layout used by the source: within one depth slice, ranks are numbered
col_rank + row_rank * tesseract_dim. -/
def gridGlobalRank (row_rank col_rank dep_rank tesseract_dim
    data_parallel_rank pipeline_parallel_rank pipeline_parallel_size
    tensor_parallel_size : ℕ) : ℕ :=
  col_rank + row_rank * tesseract_dim + dep_rank * tesseract_dim ^ 2 +
    data_parallel_rank * pipeline_parallel_size * tensor_parallel_size +
    pipeline_parallel_rank * tensor_parallel_size

/-- Python negative shape indexing: negIdx s k models s[-k]
(meaningful for 1 ≤ k ≤ s.length). -/
def negIdx (shape : List ℕ) (k : ℕ) : ℕ :=
  shape.getD (shape.length - k) 0

/-- The shape-mismatch message of the matmul asserts, e.g. source line 50:
Invalid shapes: A=..., B=... for AB. -/
def invalid_shapes_msg (As Bs : List ℕ) (op_name : String) : String :=
  "Invalid shapes: A=" ++ toString As ++ ", B=" ++ toString Bs ++
    " for " ++ op_name ++ "."

/-- A collective communication call issued by an operation. -/
inductive CommOp
  | all_gather
  | broadcast
  | reduce
deriving DecidableEq

/-- One slot of the tuple returned by a backward: a tensor gradient or the
None placeholder. -/
inductive GradSlot
  | grad
  | none
deriving DecidableEq

/-- Non-tensor (metadata) arguments of the three matmul forwards, in the
positional order of the source signatures (lines 31-44, 134-148, 231-244).
ParallelMode handles are opaque values of a parameter type P. -/
structure MatmulArgs (P : Type) where
  tesseract_dim : ℕ
  out_shape : List ℕ
  row_rank : ℕ
  col_rank : ℕ
  dep_rank : ℕ
  row_parallel_mode : P
  col_parallel_mode : P
  data_parallel_rank : ℕ
  pipeline_parallel_rank : ℕ
  pipeline_parallel_size : ℕ
  tensor_parallel_size : ℕ

/-- The context fields saved across forward→backward, in the order they are
assigned (lines 83-94; the same block appears in all three matmul classes). -/
structure MatmulCtx (P : Type) where
  tesseract_dim : ℕ
  row_rank : ℕ
  col_rank : ℕ
  dep_rank : ℕ
  row_parallel_mode : P
  col_parallel_mode : P
  A_shape : List ℕ
  B_shape : List ℕ
  data_parallel_rank : ℕ
  pipeline_parallel_rank : ℕ
  pipeline_parallel_size : ℕ
  tensor_parallel_size : ℕ

/-- Context saving of the matmul forwards (lines 83-94): every metadata
argument is stored unchanged, plus the shapes of the two input tensors. -/
def MatmulCtx.save {P : Type} (a : MatmulArgs P) (A_shape B_shape : List ℕ) :
    MatmulCtx P :=
  ⟨a.tesseract_dim, a.row_rank, a.col_rank, a.dep_rank,
    a.row_parallel_mode, a.col_parallel_mode, A_shape, B_shape,
    a.data_parallel_rank, a.pipeline_parallel_rank,
    a.pipeline_parallel_size, a.tensor_parallel_size⟩

namespace Matmul_AB_2p5D

/-- Row-gather index of the forward loop, lines 73 and 75 of the source:
src_a = i + tesseract_dim * row_rank; src_a = src_a % tesseract_dim. -/
def src_a (tesseract_dim row_rank i : ℕ) : ℕ :=
  (i + tesseract_dim * row_rank) % tesseract_dim

/-- Column-gather index of the forward loop, lines 74 and 76 of the source:
src_b = i + tesseract_dim * col_rank; src_b = src_b % tesseract_dim. -/
def src_b (tesseract_dim col_rank i : ℕ) : ℕ :=
  (i + tesseract_dim * col_rank) % tesseract_dim

/-- src_a as an index into the gathered list A_list. -/
def src_a_fin {d : ℕ} (row_rank i : Fin d) : Fin d :=
  ⟨src_a d row_rank i, Nat.mod_lt _ row_rank.pos⟩

/-- src_b as an index into the gathered list B_list. -/
def src_b_fin {d : ℕ} (col_rank i : Fin d) : Fin d :=
  ⟨src_b d col_rank i, Nat.mod_lt _ col_rank.pos⟩

/-- The accumulation loop of Matmul_AB_2p5D.forward (source lines 60, 72-79):
C starts at zeros and each iteration i adds A_list[src_a] @ B_list[src_b]. -/
def forwardTile {d mh kh nh : ℕ} (A_list : Fin d → Tile mh kh)
    (B_list : Fin d → Tile kh nh) (row_rank col_rank : Fin d) : Tile mh nh :=
  ∑ i : Fin d, A_list (src_a_fin row_rank i) * B_list (src_b_fin col_rank i)

/-- The forward of Matmul_AB_2p5D executed at every rank of the grid.
At rank (r, c) the row-group all-gather of A (source lines 62-67) yields
A_list[j] = tile of A at (r, j) and the column-group all-gather of B
(source lines 63-70) yields B_list[i] = tile of B at (i, c). -/
def allRanks {d mh kh nh : ℕ} (Atiles : TileGrid d mh kh)
    (Btiles : TileGrid d kh nh) : TileGrid d mh nh :=
  fun r c => forwardTile (fun j => Atiles r j) (fun i => Btiles i c) r c

/-- Shape check and communication trace of the forward: the assert of
lines 49-50 fires before the all-gathers of lines 66-68. -/
def run (As Bs : List ℕ) : Option String × List CommOp :=
  if negIdx As 1 = negIdx Bs 2 then
    (Option.none, [CommOp.all_gather, CommOp.all_gather])
  else
    (Option.some (invalid_shapes_msg As Bs "AB"), [])

/-- Positional forward parameters after ctx (lines 31-44). -/
def forward_params : List String :=
  ["A", "B", "tesseract_dim", "out_shape", "row_rank", "col_rank",
   "dep_rank", "row_parallel_mode", "col_parallel_mode",
   "data_parallel_rank", "pipeline_parallel_rank",
   "pipeline_parallel_size", "tensor_parallel_size"]

/-- The tuple returned by backward (line 125): A_grad, B_grad and 13 Nones. -/
def backward_slots : List GradSlot :=
  [.grad, .grad, .none, .none, .none, .none, .none, .none, .none, .none,
   .none, .none, .none, .none, .none]

/-- Metadata of the Matmul_ABT_2p5D.apply call computing A_grad in backward
(lines 103-113): ctx fields with ctx.A_shape as the out_shape. -/
def gradA_args {P : Type} (c : MatmulCtx P) : MatmulArgs P :=
  ⟨c.tesseract_dim, c.A_shape, c.row_rank, c.col_rank, c.dep_rank,
    c.row_parallel_mode, c.col_parallel_mode, c.data_parallel_rank,
    c.pipeline_parallel_rank, c.pipeline_parallel_size,
    c.tensor_parallel_size⟩

/-- Metadata of the Matmul_ATB_2p5D.apply call computing B_grad in backward
(lines 114-124): ctx fields with ctx.B_shape as the out_shape. -/
def gradB_args {P : Type} (c : MatmulCtx P) : MatmulArgs P :=
  ⟨c.tesseract_dim, c.B_shape, c.row_rank, c.col_rank, c.dep_rank,
    c.row_parallel_mode, c.col_parallel_mode, c.data_parallel_rank,
    c.pipeline_parallel_rank, c.pipeline_parallel_size,
    c.tensor_parallel_size⟩

end Matmul_AB_2p5D

namespace Matmul_ABT_2p5D

/-- Broadcast-source rank of the column group, source lines 165-167:
src_b = col_rank + i*tesseract_dim + dep_rank*(tesseract_dim**2)
        + data_parallel_rank*pipeline_parallel_size*tensor_parallel_size
        + pipeline_parallel_rank*tensor_parallel_size. -/
def src_b (i col_rank dep_rank tesseract_dim data_parallel_rank
    pipeline_parallel_rank pipeline_parallel_size tensor_parallel_size : ℕ) : ℕ :=
  col_rank + i * tesseract_dim + dep_rank * tesseract_dim ^ 2 +
    data_parallel_rank * pipeline_parallel_size * tensor_parallel_size +
    pipeline_parallel_rank * tensor_parallel_size

/-- Reduce-destination rank of the row group, source lines 170-172:
src_c = i + row_rank*tesseract_dim + dep_rank*(tesseract_dim**2)
        + data_parallel_rank*pipeline_parallel_size*tensor_parallel_size
        + pipeline_parallel_rank*tensor_parallel_size. -/
def src_c (i row_rank dep_rank tesseract_dim data_parallel_rank
    pipeline_parallel_rank pipeline_parallel_size tensor_parallel_size : ℕ) : ℕ :=
  i + row_rank * tesseract_dim + dep_rank * tesseract_dim ^ 2 +
    data_parallel_rank * pipeline_parallel_size * tensor_parallel_size +
    pipeline_parallel_rank * tensor_parallel_size

/-- B_temp at grid rank (r, c) in loop iteration i (source lines 164-168):
the broadcast inside the column group of column c whose source rank src_b is
the member with row coordinate i delivers the tile of B held at (i, c). -/
def B_temp {d nh kh : ℕ} (Btiles : TileGrid d nh kh) (i _r c : Fin d) :
    Tile nh kh :=
  Btiles i c

/-- C_temp at grid rank (r, c) in iteration i before the reduce (line 169):
C_temp = matmul(A, B_temp.transpose(0, 1)). -/
def C_temp {d mh kh nh : ℕ} (Atiles : TileGrid d mh kh)
    (Btiles : TileGrid d nh kh) (i r c : Fin d) : Tile mh nh :=
  Atiles r c * (B_temp Btiles i r c)ᵀ

/-- Value held by the reduce destination of iteration i (lines 170-173): the
destination src_c is the row-group member with column coordinate i, and the
reduce sums C_temp over all members (r, j) of the row group of row r. -/
def reducedC {d mh kh nh : ℕ} (Atiles : TileGrid d mh kh)
    (Btiles : TileGrid d nh kh) (i r : Fin d) : Tile mh nh :=
  ∑ j : Fin d, C_temp Atiles Btiles i r j

/-- The forward of Matmul_ABT_2p5D at every rank: rank (r, c) keeps the
iteration with i == col_rank (lines 174-175), at which it is exactly the
reduce destination, so it holds reducedC at i = c. -/
def allRanks {d mh kh nh : ℕ} (Atiles : TileGrid d mh kh)
    (Btiles : TileGrid d nh kh) : TileGrid d mh nh :=
  fun r c => reducedC Atiles Btiles c r

/-- Shape check and communication trace of the forward: the assert of
lines 150-151 fires before the loop of broadcasts and reduces
(lines 163-173, one broadcast and one reduce per iteration). -/
def run (As Bs : List ℕ) (tesseract_dim : ℕ) : Option String × List CommOp :=
  if negIdx As 1 = negIdx Bs 1 then
    (Option.none,
      (List.replicate tesseract_dim [CommOp.broadcast, CommOp.reduce]).flatten)
  else
    (Option.some (invalid_shapes_msg As Bs "ABT"), [])

/-- Positional forward parameters after ctx (lines 134-148). -/
def forward_params : List String :=
  ["A", "B", "tesseract_dim", "out_shape", "row_rank", "col_rank",
   "dep_rank", "row_parallel_mode", "col_parallel_mode",
   "data_parallel_rank", "pipeline_parallel_rank",
   "pipeline_parallel_size", "tensor_parallel_size"]

/-- The tuple returned by backward (line 222): A_grad, B_grad and 13 Nones. -/
def backward_slots : List GradSlot :=
  [.grad, .grad, .none, .none, .none, .none, .none, .none, .none, .none,
   .none, .none, .none, .none, .none]

/-- Metadata of the Matmul_AB_2p5D.apply call computing A_grad in backward
(lines 200-210): ctx fields with ctx.A_shape as the out_shape. -/
def gradA_args {P : Type} (c : MatmulCtx P) : MatmulArgs P :=
  ⟨c.tesseract_dim, c.A_shape, c.row_rank, c.col_rank, c.dep_rank,
    c.row_parallel_mode, c.col_parallel_mode, c.data_parallel_rank,
    c.pipeline_parallel_rank, c.pipeline_parallel_size,
    c.tensor_parallel_size⟩

/-- Metadata of the Matmul_ATB_2p5D.apply call computing B_grad in backward
(lines 211-221): ctx fields with ctx.B_shape as the out_shape. -/
def gradB_args {P : Type} (c : MatmulCtx P) : MatmulArgs P :=
  ⟨c.tesseract_dim, c.B_shape, c.row_rank, c.col_rank, c.dep_rank,
    c.row_parallel_mode, c.col_parallel_mode, c.data_parallel_rank,
    c.pipeline_parallel_rank, c.pipeline_parallel_size,
    c.tensor_parallel_size⟩

end Matmul_ABT_2p5D

namespace Matmul_ATB_2p5D

/-- Broadcast-source rank of the row group, source lines 261-263:
src_a = i + row_rank*tesseract_dim + dep_rank*(tesseract_dim**2)
        + data_parallel_rank*pipeline_parallel_size*tensor_parallel_size
        + pipeline_parallel_rank*tensor_parallel_size. -/
def src_a (i row_rank dep_rank tesseract_dim data_parallel_rank
    pipeline_parallel_rank pipeline_parallel_size tensor_parallel_size : ℕ) : ℕ :=
  i + row_rank * tesseract_dim + dep_rank * tesseract_dim ^ 2 +
    data_parallel_rank * pipeline_parallel_size * tensor_parallel_size +
    pipeline_parallel_rank * tensor_parallel_size

/-- Reduce-destination rank of the column group, source lines 267-269:
src_c = col_rank + i*tesseract_dim + dep_rank*(tesseract_dim**2)
        + data_parallel_rank*pipeline_parallel_size*tensor_parallel_size
        + pipeline_parallel_rank*tensor_parallel_size. -/
def src_c (i col_rank dep_rank tesseract_dim data_parallel_rank
    pipeline_parallel_rank pipeline_parallel_size tensor_parallel_size : ℕ) : ℕ :=
  col_rank + i * tesseract_dim + dep_rank * tesseract_dim ^ 2 +
    data_parallel_rank * pipeline_parallel_size * tensor_parallel_size +
    pipeline_parallel_rank * tensor_parallel_size

/-- A_temp at grid rank (r, c) in loop iteration i (source lines 260-265):
the broadcast inside the row group of row r whose source rank src_a is the
member with column coordinate i delivers the tile of A held at (r, i). -/
def A_temp {d kh mh : ℕ} (Atiles : TileGrid d kh mh) (i r _c : Fin d) :
    Tile kh mh :=
  Atiles r i

/-- C_temp at grid rank (r, c) in iteration i before the reduce (line 266):
C_temp = matmul(A_temp.transpose(0, 1), B). -/
def C_temp {d kh mh nh : ℕ} (Atiles : TileGrid d kh mh)
    (Btiles : TileGrid d kh nh) (i r c : Fin d) : Tile mh nh :=
  (A_temp Atiles i r c)ᵀ * Btiles r c

/-- Value held by the reduce destination of iteration i (lines 267-271): the
destination src_c is the column-group member with row coordinate i, and the
reduce sums C_temp over all members (j, c) of the column group of column c. -/
def reducedC {d kh mh nh : ℕ} (Atiles : TileGrid d kh mh)
    (Btiles : TileGrid d kh nh) (i c : Fin d) : Tile mh nh :=
  ∑ j : Fin d, C_temp Atiles Btiles i j c

/-- The forward of Matmul_ATB_2p5D at every rank: rank (r, c) keeps the
iteration with i == row_rank (lines 272-273), at which it is exactly the
reduce destination, so it holds reducedC at i = r. -/
def allRanks {d kh mh nh : ℕ} (Atiles : TileGrid d kh mh)
    (Btiles : TileGrid d kh nh) : TileGrid d mh nh :=
  fun r c => reducedC Atiles Btiles r c

/-- Shape check and communication trace of the forward: the assert of
lines 246-247 fires before the loop of broadcasts and reduces
(lines 259-271, one broadcast and one reduce per iteration). -/
def run (As Bs : List ℕ) (tesseract_dim : ℕ) : Option String × List CommOp :=
  if negIdx As 2 = negIdx Bs 2 then
    (Option.none,
      (List.replicate tesseract_dim [CommOp.broadcast, CommOp.reduce]).flatten)
  else
    (Option.some (invalid_shapes_msg As Bs "ATB"), [])

/-- Positional forward parameters after ctx (lines 231-244). -/
def forward_params : List String :=
  ["A", "B", "tesseract_dim", "out_shape", "row_rank", "col_rank",
   "dep_rank", "row_parallel_mode", "col_parallel_mode",
   "data_parallel_rank", "pipeline_parallel_rank",
   "pipeline_parallel_size", "tensor_parallel_size"]

/-- The tuple returned by backward (line 320): A_grad, B_grad and 13 Nones. -/
def backward_slots : List GradSlot :=
  [.grad, .grad, .none, .none, .none, .none, .none, .none, .none, .none,
   .none, .none, .none, .none, .none]

/-- Metadata of the Matmul_ABT_2p5D.apply call computing A_grad in backward
(lines 298-308): ctx fields with ctx.A_shape as the out_shape. -/
def gradA_args {P : Type} (c : MatmulCtx P) : MatmulArgs P :=
  ⟨c.tesseract_dim, c.A_shape, c.row_rank, c.col_rank, c.dep_rank,
    c.row_parallel_mode, c.col_parallel_mode, c.data_parallel_rank,
    c.pipeline_parallel_rank, c.pipeline_parallel_size,
    c.tensor_parallel_size⟩

/-- Metadata of the Matmul_AB_2p5D.apply call computing B_grad in backward
(lines 309-319): ctx fields with ctx.B_shape as the out_shape. -/
def gradB_args {P : Type} (c : MatmulCtx P) : MatmulArgs P :=
  ⟨c.tesseract_dim, c.B_shape, c.row_rank, c.col_rank, c.dep_rank,
    c.row_parallel_mode, c.col_parallel_mode, c.data_parallel_rank,
    c.pipeline_parallel_rank, c.pipeline_parallel_size,
    c.tensor_parallel_size⟩

end Matmul_ATB_2p5D

/-- Tile-level data flow of Matmul_AB_2p5D.backward (lines 100-125):
A_grad = Matmul_ABT_2p5D forward of (output_grad, B) and
B_grad = Matmul_ATB_2p5D forward of (A, output_grad), run across the grid. -/
def Matmul_AB_2p5D.backwardTiles {d mh kh nh : ℕ} (Atiles : TileGrid d mh kh)
    (Btiles : TileGrid d kh nh) (Gtiles : TileGrid d mh nh) :
    TileGrid d mh kh × TileGrid d kh nh :=
  (Matmul_ABT_2p5D.allRanks Gtiles Btiles, Matmul_ATB_2p5D.allRanks Atiles Gtiles)

/-- Tile-level data flow of Matmul_ABT_2p5D.backward (lines 197-222):
A_grad = Matmul_AB_2p5D forward of (output_grad, B) and
B_grad = Matmul_ATB_2p5D forward of (output_grad, A), run across the grid. -/
def Matmul_ABT_2p5D.backwardTiles {d mh kh nh : ℕ} (Atiles : TileGrid d mh kh)
    (Btiles : TileGrid d nh kh) (Gtiles : TileGrid d mh nh) :
    TileGrid d mh kh × TileGrid d nh kh :=
  (Matmul_AB_2p5D.allRanks Gtiles Btiles, Matmul_ATB_2p5D.allRanks Gtiles Atiles)

/-- Tile-level data flow of Matmul_ATB_2p5D.backward (lines 295-320):
A_grad = Matmul_ABT_2p5D forward of (B, output_grad) and
B_grad = Matmul_AB_2p5D forward of (A, output_grad), run across the grid. -/
def Matmul_ATB_2p5D.backwardTiles {d kh mh nh : ℕ} (Atiles : TileGrid d kh mh)
    (Btiles : TileGrid d kh nh) (Gtiles : TileGrid d mh nh) :
    TileGrid d kh mh × TileGrid d kh nh :=
  (Matmul_ABT_2p5D.allRanks Btiles Gtiles, Matmul_AB_2p5D.allRanks Atiles Gtiles)

namespace Add_Bias_2p5D

/-- Broadcast-source rank of the forward (lines 351-353): the column-group
member with row coordinate 0, src_rank = col_rank + dep_rank*(tesseract_dim**2)
+ data_parallel_rank*pipeline_parallel_size*tensor_parallel_size
+ pipeline_parallel_rank*tensor_parallel_size. -/
def src_rank (col_rank dep_rank tesseract_dim data_parallel_rank
    pipeline_parallel_rank pipeline_parallel_size tensor_parallel_size : ℕ) : ℕ :=
  col_rank + dep_rank * tesseract_dim ^ 2 +
    data_parallel_rank * pipeline_parallel_size * tensor_parallel_size +
    pipeline_parallel_rank * tensor_parallel_size

/-- Reduce-destination rank of the backward skip path (lines 387-389). -/
def dst_rank_skip (col_rank dep_rank tesseract_dim data_parallel_rank
    pipeline_parallel_rank pipeline_parallel_size tensor_parallel_size : ℕ) : ℕ :=
  col_rank + dep_rank * tesseract_dim ^ 2 +
    data_parallel_rank * pipeline_parallel_size * tensor_parallel_size +
    pipeline_parallel_rank * tensor_parallel_size

/-- Reduce-destination rank of the backward add path (lines 399-401). -/
def dst_rank_add (col_rank dep_rank tesseract_dim data_parallel_rank
    pipeline_parallel_rank pipeline_parallel_size tensor_parallel_size : ℕ) : ℕ :=
  col_rank + dep_rank * tesseract_dim ^ 2 +
    data_parallel_rank * pipeline_parallel_size * tensor_parallel_size +
    pipeline_parallel_rank * tensor_parallel_size

/-- bias_temp after the broadcast of lines 344-354: the rank with
row coordinate 0 clones its bias, every other rank allocates zeros, then
the value is broadcast within the column group from src_rank, the member
with row coordinate 0. Each rank r of the column group holds bias r. -/
def bias_temp {d b : ℕ} [NeZero d] (bias : Fin d → Fin b → ℤ) :
    Fin d → Fin b → ℤ :=
  broadcastFrom (fun row_rank => if row_rank = 0 then bias row_rank else 0) 0

/-- Forward on the skip_bias_add path (lines 367-368): returns bias_temp. -/
def forward_skip {d b : ℕ} [NeZero d] (bias : Fin d → Fin b → ℤ)
    (row_rank : Fin d) : Fin b → ℤ :=
  bias_temp bias row_rank

/-- Forward on the add path (lines 369-371): returns input + bias_temp,
the bias broadcasting over the leading dimension. -/
def forward_add {d n b : ℕ} [NeZero d] (input : Fin d → Matrix (Fin n) (Fin b) ℤ)
    (bias : Fin d → Fin b → ℤ) (row_rank : Fin d) : Matrix (Fin n) (Fin b) ℤ :=
  Matrix.of fun x y => input row_rank x y + bias_temp bias row_rank y

/-- The tensor handed to dist.reduce on the skip path of backward
(line 390): output_grad itself. -/
def reduce_input_skip {b : ℕ} (output_grad : Fin b → ℤ) : Fin b → ℤ :=
  output_grad

/-- torch.sum(output_grad, dim=tuple(range(output_grad.ndim - 1)))
of lines 397-398: the sum over all leading dimensions, keeping the last. -/
def colSum {n b : ℕ} (g : Matrix (Fin n) (Fin b) ℤ) : Fin b → ℤ :=
  fun y => ∑ x : Fin n, g x y

/-- The tensor handed to dist.reduce on the add path of backward
(lines 397-402): the column-sum of output_grad. -/
def reduce_input_add {n b : ℕ} (output_grad : Matrix (Fin n) (Fin b) ℤ) :
    Fin b → ℤ :=
  colSum output_grad

/-- Shape of torch.sum(output_grad, dim=tuple(range(output_grad.ndim - 1))):
only the last dimension of output_grad survives. -/
def reduce_shape_add (grad_shape : List ℕ) : List ℕ :=
  grad_shape.drop (grad_shape.length - 1)

/-- Bias gradient returned on the skip path (lines 386-395): the reduce
sends the sum of the group contributions to the member with row coordinate
0, which returns it; every other member returns zeros. -/
def backward_skip_biasGrad {d b : ℕ} [NeZero d]
    (output_grad : Fin d → Fin b → ℤ) (row_rank : Fin d) : Fin b → ℤ :=
  if row_rank = 0 then ∑ j : Fin d, reduce_input_skip (output_grad j) else 0

/-- Bias gradient returned on the add path (lines 396-407): the reduce of
the column-sums sends their total to the member with row coordinate 0,
which returns it; every other member returns zeros. -/
def backward_add_biasGrad {d n b : ℕ} [NeZero d]
    (output_grad : Fin d → Matrix (Fin n) (Fin b) ℤ) (row_rank : Fin d) :
    Fin b → ℤ :=
  if row_rank = 0 then ∑ j : Fin d, reduce_input_add (output_grad j) else 0

/-- Input gradient returned on the add path (first slot of lines 404 and
407): output_grad passed through unchanged. -/
def backward_add_inputGrad {d n b : ℕ}
    (output_grad : Fin d → Matrix (Fin n) (Fin b) ℤ) (row_rank : Fin d) :
    Matrix (Fin n) (Fin b) ℤ :=
  output_grad row_rank

/-- Positional forward parameters after ctx (lines 329-343). -/
def forward_params : List String :=
  ["input", "bias", "output_size_per_partition", "tesseract_dim",
   "row_rank", "col_rank", "dep_rank", "col_parallel_mode",
   "skip_bias_add", "data_parallel_rank", "pipeline_parallel_rank",
   "pipeline_parallel_size", "tensor_parallel_size"]

/-- The tuple returned by backward on the skip path (lines 392 and 395):
None, the bias gradient, and 14 more Nones. -/
def backward_slots_skip : List GradSlot :=
  [.none, .grad, .none, .none, .none, .none, .none, .none, .none, .none,
   .none, .none, .none, .none, .none, .none]

/-- The tuple returned by backward on the add path (lines 404 and 407):
the input gradient, the bias gradient, and 15 Nones. -/
def backward_slots_add : List GradSlot :=
  [.grad, .grad, .none, .none, .none, .none, .none, .none, .none, .none,
   .none, .none, .none, .none, .none, .none, .none]

end Add_Bias_2p5D

namespace _LayerNorm_2p5D

/-- Forward of _LayerNorm_2p5D (lines 413-425) on the local slice of one
logical row: output = (input - E_x) * Var_x, with E_x the precomputed
row mean and Var_x the precomputed inverse standard deviation. -/
def forward {nh : ℕ} (input : Fin nh → ℚ) (E_x Var_x : ℚ) : Fin nh → ℚ :=
  fun k => (input k - E_x) * Var_x

/-- Backward of _LayerNorm_2p5D (lines 429-450) for one logical row sharded
over the d members of the row group, each holding a slice of width nh.
x j and output_grad j are the saved forward output and the incoming
gradient at member j. The two all-reduces of lines 435-436 and 441-442 turn
the local last-dimension sums into sums over every shard of the row; both
are divided by the full hidden size (lines 437 and 443). The returned
gradient follows lines 445-448:
input_grad = output_grad; -= x * output_grad_mul_x_sum;
-= output_grad_sum; *= Var_x. -/
def backward {d nh : ℕ} (hidden_size : ℕ) (Var_x : ℚ)
    (x output_grad : Fin d → Fin nh → ℚ) (j : Fin d) : Fin nh → ℚ :=
  let output_grad_sum : ℚ :=
    (∑ j2 : Fin d, ∑ k : Fin nh, output_grad j2 k) / (hidden_size : ℚ)
  let output_grad_mul_x_sum : ℚ :=
    (∑ j2 : Fin d, ∑ k : Fin nh, output_grad j2 k * x j2 k) / (hidden_size : ℚ)
  fun k =>
    (output_grad j k - x j k * output_grad_mul_x_sum - output_grad_sum) * Var_x

/-- Positional forward parameters after ctx (lines 413-418). -/
def forward_params : List String :=
  ["input", "E_x", "Var_x", "hidden_size", "row_parallel_mode"]

/-- The tuple returned by backward (line 450): input_grad and 6 Nones. -/
def backward_slots : List GradSlot :=
  [.grad, .none, .none, .none, .none, .none, .none]

end _LayerNorm_2p5D

/-- Python-style tensor.permute(dims) on a shape: defined exactly when dims
is a permutation of the axes of the shape, the error case of torch
(number of dims must match and each index must be in range). -/
def permuteDims (shape dims : List ℕ) : Option (List ℕ) :=
  if dims.length = shape.length ∧ dims.Nodup ∧ ∀ i ∈ dims, i < shape.length
  then Option.some (dims.map fun i => shape.getD i 0)
  else Option.none

namespace AllGatherLast

/-- Shape-level run of AllGatherLast.forward (lines 518-535) with the
communication trace. Steps in source order: inputs.size(-1) (line 525,
fails on a 0-dimensional tensor); outputs_shape = (tesseract_dim *
inputs.size(-1),) + inputs.shape[:-1] (lines 525-526); the all-gather call
evaluates inputs.permute(2, 0, 1) before communicating (lines 529-533), so
a non-3D input raises there and no collective is issued; finally
outputs.permute(1, 2, 0) after the gather (line 534). -/
def run (inputs_shape : List ℕ) (tesseract_dim : ℕ) :
    Except String (List ℕ) × List CommOp :=
  if inputs_shape.length = 0 then
    (Except.error "Dimension out of range", [])
  else
    let outputs_shape :=
      (tesseract_dim * negIdx inputs_shape 1) :: inputs_shape.dropLast
    match permuteDims inputs_shape [2, 0, 1] with
    | Option.none =>
        (Except.error "number of dims do not match in permute", [])
    | Option.some _ =>
        match permuteDims outputs_shape [1, 2, 0] with
        | Option.none =>
            (Except.error "number of dims do not match in permute",
              [CommOp.all_gather])
        | Option.some out => (Except.ok out, [CommOp.all_gather])

/-- Positional forward parameters after ctx (lines 518-521). -/
def forward_params : List String :=
  ["inputs", "tesseract_dim", "col_parallel_mode"]

/-- The tuple returned by backward (line 541): grad and 2 Nones. -/
def backward_slots : List GradSlot :=
  [.grad, .none, .none]

end AllGatherLast

namespace SplitFirst

/-- Positional forward parameters after ctx (lines 548-551). -/
def forward_params : List String :=
  ["inputs", "tesseract_dim", "col_parallel_mode"]

/-- The tuple returned by backward (line 571): grad and 2 Nones. -/
def backward_slots : List GradSlot :=
  [.grad, .none, .none]

end SplitFirst

/-- A concrete 2×2-sharded integer matrix with 1×1 tiles, used to
instantiate universally quantified statements. -/
def demoA : Matrix (Fin 2 × Fin 1) (Fin 2 × Fin 1) ℤ :=
  Matrix.of fun p q => (p.1 : ℤ) + 2 * (q.1 : ℤ) + 1

/-- A second concrete 2×2-sharded integer matrix with 1×1 tiles. -/
def demoB : Matrix (Fin 2 × Fin 1) (Fin 2 × Fin 1) ℤ :=
  Matrix.of fun p q => (p.1 : ℤ) - 3 * (q.1 : ℤ)

/-- Concrete per-rank bias vectors on a column group of two ranks. -/
def demoBias : Fin 2 → Fin 1 → ℤ := fun j _ => (j : ℤ) + 5

/-- Concrete per-rank bias-shaped gradients on a column group of two ranks. -/
def demoVecGrads : Fin 2 → Fin 1 → ℤ := fun j _ => 2 * (j : ℤ) + 1

/-! ## Theorems -/

theorem Matmul_AB_2p5D.src_a_fin_eq {d : ℕ} (r i : Fin d) :
    src_a_fin r i = i := by
  apply Fin.ext
  show src_a d r i = i
  unfold src_a
  rw [Nat.add_mul_mod_self_left, Nat.mod_eq_of_lt i.isLt]

theorem Matmul_AB_2p5D.src_b_fin_eq {d : ℕ} (c i : Fin d) :
    src_b_fin c i = i := by
  apply Fin.ext
  show src_b d c i = i
  unfold src_b
  rw [Nat.add_mul_mod_self_left, Nat.mod_eq_of_lt i.isLt]

/-- The accumulation reduces to the direct contraction over the gathered lists. -/
theorem Matmul_AB_2p5D.forwardTile_eq_sum {d mh kh nh : ℕ}
    (A_list : Fin d → Tile mh kh) (B_list : Fin d → Tile kh nh)
    (r c : Fin d) :
    forwardTile A_list B_list r c = ∑ i : Fin d, A_list i * B_list i := by
  unfold forwardTile
  simp only [src_a_fin_eq, src_b_fin_eq]

/-- Assembled correctness of the AB forward over the whole grid. -/
theorem Matmul_AB_2p5D.allRanks_assembled_AB {d mh kh nh : ℕ}
    (A : Matrix (Fin d × Fin mh) (Fin d × Fin kh) ℤ)
    (B : Matrix (Fin d × Fin kh) (Fin d × Fin nh) ℤ) :
    assemble (allRanks (tileOf A) (tileOf B)) = A * B := by
  ext p q
  obtain ⟨r, x⟩ := p
  obtain ⟨c, y⟩ := q
  simp only [assemble, allRanks, forwardTile_eq_sum, tileOf, Matrix.of_apply,
    Matrix.sum_apply, Matrix.mul_apply, Fintype.sum_prod_type]

/-- Assembled correctness of the ABT forward over the whole grid. -/
theorem Matmul_ABT_2p5D.allRanks_assembled_ABT {d mh kh nh : ℕ}
    (A : Matrix (Fin d × Fin mh) (Fin d × Fin kh) ℤ)
    (B : Matrix (Fin d × Fin nh) (Fin d × Fin kh) ℤ) :
    assemble (allRanks (tileOf A) (tileOf B)) = A * Bᵀ := by
  ext p q
  obtain ⟨r, x⟩ := p
  obtain ⟨c, y⟩ := q
  simp only [assemble, allRanks, reducedC, C_temp, B_temp, tileOf,
    Matrix.of_apply, Matrix.sum_apply, Matrix.mul_apply, Matrix.transpose_apply,
    Fintype.sum_prod_type]

/-- Assembled correctness of the ATB forward over the whole grid. -/
theorem Matmul_ATB_2p5D.allRanks_assembled_ATB {d kh mh nh : ℕ}
    (A : Matrix (Fin d × Fin kh) (Fin d × Fin mh) ℤ)
    (B : Matrix (Fin d × Fin kh) (Fin d × Fin nh) ℤ) :
    assemble (allRanks (tileOf A) (tileOf B)) = Aᵀ * B := by
  ext p q
  obtain ⟨r, x⟩ := p
  obtain ⟨c, y⟩ := q
  simp only [assemble, allRanks, reducedC, C_temp, A_temp, tileOf,
    Matrix.of_apply, Matrix.sum_apply, Matrix.mul_apply, Matrix.transpose_apply,
    Fintype.sum_prod_type]

/-- C1: For every grid size d = tesseract_dim in {1,2,4} and all dense
matrices A, B of compatible shape sharded over the d×d grid, the tiles
returned by the forward of Matmul_AB_2p5D, assembled back into a dense
matrix, equal the reference dense product A·B; the forwards of
Matmul_ABT_2p5D and Matmul_ATB_2p5D satisfy the same assembled-equality
for A·Bᵀ and Aᵀ·B respectively. -/
theorem claim_C1 (d : ℕ) (_hd : d = 1 ∨ d = 2 ∨ d = 4) :
    (∀ (mh kh nh : ℕ) (A : Matrix (Fin d × Fin mh) (Fin d × Fin kh) ℤ)
       (B : Matrix (Fin d × Fin kh) (Fin d × Fin nh) ℤ),
       assemble (Matmul_AB_2p5D.allRanks (tileOf A) (tileOf B)) = A * B) ∧
    (∀ (mh kh nh : ℕ) (A : Matrix (Fin d × Fin mh) (Fin d × Fin kh) ℤ)
       (B : Matrix (Fin d × Fin nh) (Fin d × Fin kh) ℤ),
       assemble (Matmul_ABT_2p5D.allRanks (tileOf A) (tileOf B)) = A * Bᵀ) ∧
    (∀ (kh mh nh : ℕ) (A : Matrix (Fin d × Fin kh) (Fin d × Fin mh) ℤ)
       (B : Matrix (Fin d × Fin kh) (Fin d × Fin nh) ℤ),
       assemble (Matmul_ATB_2p5D.allRanks (tileOf A) (tileOf B)) = Aᵀ * B) :=
  ⟨fun _ _ _ A B => Matmul_AB_2p5D.allRanks_assembled_AB A B,
   fun _ _ _ A B => Matmul_ABT_2p5D.allRanks_assembled_ABT A B,
   fun _ _ _ A B => Matmul_ATB_2p5D.allRanks_assembled_ATB A B⟩

/-- Witness for C1 at the concrete grid size d = 2 and concrete matrices. -/
theorem claim_C1_witness :
    ((2 : ℕ) = 1 ∨ (2 : ℕ) = 2 ∨ (2 : ℕ) = 4) ∧
    assemble (Matmul_AB_2p5D.allRanks (tileOf demoA) (tileOf demoB)) =
      demoA * demoB :=
  ⟨by decide, (claim_C1 2 (by decide)).1 1 1 1 demoA demoB⟩

/-- C2: for every forward invocation of each matmul variant, the backward
computes the input gradients by calling the sibling variants, with the
argument orders
  AB:  grad_A = ABT(grad_C, B), grad_B = ATB(A, grad_C);
  ABT: grad_A = AB(grad_C, B),  grad_B = ATB(grad_C, A);
  ATB: grad_A = ABT(B, grad_C), grad_B = AB(A, grad_C);
and all grid/shape metadata saved in the context is passed to the sibling
calls unchanged (the saved input shapes serving as the sibling out_shape). -/
theorem claim_C2 :
    (∀ (d mh kh nh : ℕ) (Atiles : TileGrid d mh kh) (Btiles : TileGrid d kh nh)
       (G : TileGrid d mh nh),
       Matmul_AB_2p5D.backwardTiles Atiles Btiles G =
         (Matmul_ABT_2p5D.allRanks G Btiles, Matmul_ATB_2p5D.allRanks Atiles G)) ∧
    (∀ (d mh kh nh : ℕ) (Atiles : TileGrid d mh kh) (Btiles : TileGrid d nh kh)
       (G : TileGrid d mh nh),
       Matmul_ABT_2p5D.backwardTiles Atiles Btiles G =
         (Matmul_AB_2p5D.allRanks G Btiles, Matmul_ATB_2p5D.allRanks G Atiles)) ∧
    (∀ (d kh mh nh : ℕ) (Atiles : TileGrid d kh mh) (Btiles : TileGrid d kh nh)
       (G : TileGrid d mh nh),
       Matmul_ATB_2p5D.backwardTiles Atiles Btiles G =
         (Matmul_ABT_2p5D.allRanks Btiles G, Matmul_AB_2p5D.allRanks Atiles G)) ∧
    (∀ (P : Type) (a : MatmulArgs P) (As Bs : List ℕ),
       (Matmul_AB_2p5D.gradA_args (MatmulCtx.save a As Bs) =
         ⟨a.tesseract_dim, As, a.row_rank, a.col_rank, a.dep_rank,
          a.row_parallel_mode, a.col_parallel_mode, a.data_parallel_rank,
          a.pipeline_parallel_rank, a.pipeline_parallel_size,
          a.tensor_parallel_size⟩) ∧
       (Matmul_AB_2p5D.gradB_args (MatmulCtx.save a As Bs) =
         ⟨a.tesseract_dim, Bs, a.row_rank, a.col_rank, a.dep_rank,
          a.row_parallel_mode, a.col_parallel_mode, a.data_parallel_rank,
          a.pipeline_parallel_rank, a.pipeline_parallel_size,
          a.tensor_parallel_size⟩) ∧
       (Matmul_ABT_2p5D.gradA_args (MatmulCtx.save a As Bs) =
         ⟨a.tesseract_dim, As, a.row_rank, a.col_rank, a.dep_rank,
          a.row_parallel_mode, a.col_parallel_mode, a.data_parallel_rank,
          a.pipeline_parallel_rank, a.pipeline_parallel_size,
          a.tensor_parallel_size⟩) ∧
       (Matmul_ABT_2p5D.gradB_args (MatmulCtx.save a As Bs) =
         ⟨a.tesseract_dim, Bs, a.row_rank, a.col_rank, a.dep_rank,
          a.row_parallel_mode, a.col_parallel_mode, a.data_parallel_rank,
          a.pipeline_parallel_rank, a.pipeline_parallel_size,
          a.tensor_parallel_size⟩) ∧
       (Matmul_ATB_2p5D.gradA_args (MatmulCtx.save a As Bs) =
         ⟨a.tesseract_dim, As, a.row_rank, a.col_rank, a.dep_rank,
          a.row_parallel_mode, a.col_parallel_mode, a.data_parallel_rank,
          a.pipeline_parallel_rank, a.pipeline_parallel_size,
          a.tensor_parallel_size⟩) ∧
       (Matmul_ATB_2p5D.gradB_args (MatmulCtx.save a As Bs) =
         ⟨a.tesseract_dim, Bs, a.row_rank, a.col_rank, a.dep_rank,
          a.row_parallel_mode, a.col_parallel_mode, a.data_parallel_rank,
          a.pipeline_parallel_rank, a.pipeline_parallel_size,
          a.tensor_parallel_size⟩)) :=
  ⟨fun _dU _mU _kU _nU _AU _BU _GU => rfl,
   fun _dV _mV _kV _nV _AV _BV _GV => rfl,
   fun _dW _kW _mW _nW _AW _BW _GW => rfl,
   fun _PZ _aZ _AsZ _BsZ => ⟨rfl, rfl, rfl, rfl, rfl, rfl⟩⟩

/-- C3 counterexample: the claim says the AB loop reads
A_list[(i + row_rank) mod d], but at tesseract_dim = 2, row_rank = 1,
loop index i = 0 the code computes src_a = (0 + 2·1) mod 2 = 0 while
(0 + 1) mod 2 = 1. -/
theorem claim_C3_counterexample :
    Matmul_AB_2p5D.src_a 2 1 0 ≠ (0 + 1) % 2 := by decide

/-- C3 (amended): in the forward of Matmul_AB_2p5D, after the row-group
all-gather of A and the column-group all-gather of B, every rank
multiplies, at each iteration i in 0..tesseract_dim, the tile
A_list[(i + tesseract_dim·row_rank) mod tesseract_dim] by
B_list[(i + tesseract_dim·col_rank) mod tesseract_dim]; for
0 ≤ i < tesseract_dim these indices both equal i, so the running sum is
C = Σ_i A_list[i] · B_list[i]. -/
theorem claim_C3 :
    (∀ tesseract_dim row_rank i : ℕ, i < tesseract_dim →
       Matmul_AB_2p5D.src_a tesseract_dim row_rank i = i) ∧
    (∀ tesseract_dim col_rank i : ℕ, i < tesseract_dim →
       Matmul_AB_2p5D.src_b tesseract_dim col_rank i = i) ∧
    (∀ (d mh kh nh : ℕ) (A_list : Fin d → Tile mh kh)
       (B_list : Fin d → Tile kh nh) (r c : Fin d),
       Matmul_AB_2p5D.forwardTile A_list B_list r c =
         ∑ i : Fin d, A_list i * B_list i) := by
  refine ⟨fun dd rr i hi => ?_, fun dd cc i hi => ?_,
    fun d mh kh nh Al Bl r c => Matmul_AB_2p5D.forwardTile_eq_sum Al Bl r c⟩
  · unfold Matmul_AB_2p5D.src_a
    rw [Nat.add_mul_mod_self_left, Nat.mod_eq_of_lt hi]
  · unfold Matmul_AB_2p5D.src_b
    rw [Nat.add_mul_mod_self_left, Nat.mod_eq_of_lt hi]

/-- Witness for C3 at concrete indices. -/
theorem claim_C3_witness :
    Matmul_AB_2p5D.src_a 2 1 0 = 0 ∧ Matmul_AB_2p5D.src_b 3 2 1 = 1 :=
  ⟨claim_C3.1 2 1 0 (by decide), claim_C3.2.1 3 2 1 (by decide)⟩

/-- C4: every collective source/destination rank computed inside the matmul
and bias operations equals
minor_offset + dep_rank·tesseract_dim² +
data_parallel_rank·pipeline_parallel_size·tensor_parallel_size +
pipeline_parallel_rank·tensor_parallel_size (the grid_rank formula), where
minor_offset is col_rank + i·tesseract_dim for the column-group broadcast
source at loop index i (which is the column-group member with row
coordinate i) and i + row_rank·tesseract_dim for the row-group reduce
destination at loop index i (the row-group member with column coordinate
i); the bias collectives use minor_offset col_rank, the row-0 member. -/
theorem claim_C4 :
    ∀ i row_rank col_rank dep_rank tesseract_dim data_parallel_rank
      pipeline_parallel_rank pipeline_parallel_size tensor_parallel_size : ℕ,
    (Matmul_ABT_2p5D.src_b i col_rank dep_rank tesseract_dim
        data_parallel_rank pipeline_parallel_rank pipeline_parallel_size
        tensor_parallel_size =
      grid_rank (col_rank + i * tesseract_dim) dep_rank tesseract_dim
        data_parallel_rank pipeline_parallel_rank pipeline_parallel_size
        tensor_parallel_size) ∧
    (Matmul_ABT_2p5D.src_c i row_rank dep_rank tesseract_dim
        data_parallel_rank pipeline_parallel_rank pipeline_parallel_size
        tensor_parallel_size =
      grid_rank (i + row_rank * tesseract_dim) dep_rank tesseract_dim
        data_parallel_rank pipeline_parallel_rank pipeline_parallel_size
        tensor_parallel_size) ∧
    (Matmul_ATB_2p5D.src_a i row_rank dep_rank tesseract_dim
        data_parallel_rank pipeline_parallel_rank pipeline_parallel_size
        tensor_parallel_size =
      grid_rank (i + row_rank * tesseract_dim) dep_rank tesseract_dim
        data_parallel_rank pipeline_parallel_rank pipeline_parallel_size
        tensor_parallel_size) ∧
    (Matmul_ATB_2p5D.src_c i col_rank dep_rank tesseract_dim
        data_parallel_rank pipeline_parallel_rank pipeline_parallel_size
        tensor_parallel_size =
      grid_rank (col_rank + i * tesseract_dim) dep_rank tesseract_dim
        data_parallel_rank pipeline_parallel_rank pipeline_parallel_size
        tensor_parallel_size) ∧
    (Add_Bias_2p5D.src_rank col_rank dep_rank tesseract_dim
        data_parallel_rank pipeline_parallel_rank pipeline_parallel_size
        tensor_parallel_size =
      grid_rank col_rank dep_rank tesseract_dim data_parallel_rank
        pipeline_parallel_rank pipeline_parallel_size tensor_parallel_size) ∧
    (Add_Bias_2p5D.dst_rank_skip col_rank dep_rank tesseract_dim
        data_parallel_rank pipeline_parallel_rank pipeline_parallel_size
        tensor_parallel_size =
      grid_rank col_rank dep_rank tesseract_dim data_parallel_rank
        pipeline_parallel_rank pipeline_parallel_size tensor_parallel_size) ∧
    (Add_Bias_2p5D.dst_rank_add col_rank dep_rank tesseract_dim
        data_parallel_rank pipeline_parallel_rank pipeline_parallel_size
        tensor_parallel_size =
      grid_rank col_rank dep_rank tesseract_dim data_parallel_rank
        pipeline_parallel_rank pipeline_parallel_size tensor_parallel_size) ∧
    (Matmul_ABT_2p5D.src_b i col_rank dep_rank tesseract_dim
        data_parallel_rank pipeline_parallel_rank pipeline_parallel_size
        tensor_parallel_size =
      gridGlobalRank i col_rank dep_rank tesseract_dim data_parallel_rank
        pipeline_parallel_rank pipeline_parallel_size tensor_parallel_size) ∧
    (Matmul_ABT_2p5D.src_c i row_rank dep_rank tesseract_dim
        data_parallel_rank pipeline_parallel_rank pipeline_parallel_size
        tensor_parallel_size =
      gridGlobalRank row_rank i dep_rank tesseract_dim data_parallel_rank
        pipeline_parallel_rank pipeline_parallel_size tensor_parallel_size) := by
  intro i rr cc dep td dp pp pps tps
  refine ⟨?_, ?_, ?_, ?_, ?_, ?_, ?_, ?_, ?_⟩ <;>
    simp only [Matmul_ABT_2p5D.src_b, Matmul_ABT_2p5D.src_c,
      Matmul_ATB_2p5D.src_a, Matmul_ATB_2p5D.src_c, Add_Bias_2p5D.src_rank,
      Add_Bias_2p5D.dst_rank_skip, Add_Bias_2p5D.dst_rank_add, grid_rank,
      gridGlobalRank]

/-- C5: for every pair of input tensors whose inner dimensions mismatch
(for AB: the last dimension of A vs the second-to-last of B; for ABT: the
two last dimensions; for ATB: the two second-to-last dimensions), the
corresponding forward fails with a descriptive error naming both shapes and
the operation, and this failure occurs before any collective communication
is issued (the trace is empty); when the dimensions match, no shape error
is raised. -/
theorem claim_C5 :
    ∀ (As Bs : List ℕ) (tesseract_dim : ℕ),
      2 ≤ As.length → 2 ≤ Bs.length →
      ((negIdx As 1 ≠ negIdx Bs 2 →
          Matmul_AB_2p5D.run As Bs =
            (Option.some (invalid_shapes_msg As Bs "AB"), [])) ∧
       (negIdx As 1 = negIdx Bs 2 →
          (Matmul_AB_2p5D.run As Bs).1 = Option.none)) ∧
      ((negIdx As 1 ≠ negIdx Bs 1 →
          Matmul_ABT_2p5D.run As Bs tesseract_dim =
            (Option.some (invalid_shapes_msg As Bs "ABT"), [])) ∧
       (negIdx As 1 = negIdx Bs 1 →
          (Matmul_ABT_2p5D.run As Bs tesseract_dim).1 = Option.none)) ∧
      ((negIdx As 2 ≠ negIdx Bs 2 →
          Matmul_ATB_2p5D.run As Bs tesseract_dim =
            (Option.some (invalid_shapes_msg As Bs "ATB"), [])) ∧
       (negIdx As 2 = negIdx Bs 2 →
          (Matmul_ATB_2p5D.run As Bs tesseract_dim).1 = Option.none)) := by
  intro As Bs td _hA _hB
  exact ⟨⟨fun hmisAB => by simp only [Matmul_AB_2p5D.run, if_neg hmisAB],
          fun hokAB => by simp only [Matmul_AB_2p5D.run, if_pos hokAB]⟩,
         ⟨fun hmisABT => by simp only [Matmul_ABT_2p5D.run, if_neg hmisABT],
          fun hokABT => by simp only [Matmul_ABT_2p5D.run, if_pos hokABT]⟩,
         ⟨fun hmisATB => by simp only [Matmul_ATB_2p5D.run, if_neg hmisATB],
          fun hokATB => by simp only [Matmul_ATB_2p5D.run, if_pos hokATB]⟩⟩

/-- Witness for C5 at concrete shapes: [2,3] × [4,5] mismatches for AB
(3 ≠ 4) and the error carries both shapes and the operation name; [2,3] ×
[3,5] matches for AB (3 = 3) and raises no shape error. -/
theorem claim_C5_witness :
    (2 ≤ ([2, 3] : List ℕ).length) ∧
    Matmul_AB_2p5D.run [2, 3] [4, 5] =
      (Option.some (invalid_shapes_msg [2, 3] [4, 5] "AB"), []) ∧
    (Matmul_AB_2p5D.run [2, 3] [3, 5]).1 = Option.none :=
  ⟨by decide,
   (claim_C5 [2, 3] [4, 5] 2 (by decide) (by decide)).1.1 (by decide),
   (claim_C5 [2, 3] [3, 5] 2 (by decide) (by decide)).1.2 (by decide)⟩

/-- C6 (refuted, code bug): the claim says backward returns exactly one
gradient slot per positional forward argument, identically on every
control-flow path. In the code the three matmul backwards return 15 slots
against 13 forward arguments; Add_Bias_2p5D.backward returns 16 slots on
the skip path and 17 on the add path against 13 forward arguments (the two
paths do not even agree); _LayerNorm_2p5D.backward returns 7 slots against
5 forward arguments. Only AllGatherLast and SplitFirst match (3 = 3). -/
theorem claim_C6 :
    (Matmul_AB_2p5D.forward_params.length = 13 ∧
     Matmul_AB_2p5D.backward_slots.length = 15 ∧
     Matmul_AB_2p5D.backward_slots.length ≠
       Matmul_AB_2p5D.forward_params.length) ∧
    (Matmul_ABT_2p5D.forward_params.length = 13 ∧
     Matmul_ABT_2p5D.backward_slots.length = 15 ∧
     Matmul_ABT_2p5D.backward_slots.length ≠
       Matmul_ABT_2p5D.forward_params.length) ∧
    (Matmul_ATB_2p5D.forward_params.length = 13 ∧
     Matmul_ATB_2p5D.backward_slots.length = 15 ∧
     Matmul_ATB_2p5D.backward_slots.length ≠
       Matmul_ATB_2p5D.forward_params.length) ∧
    (Add_Bias_2p5D.forward_params.length = 13 ∧
     Add_Bias_2p5D.backward_slots_skip.length = 16 ∧
     Add_Bias_2p5D.backward_slots_add.length = 17 ∧
     Add_Bias_2p5D.backward_slots_skip.length ≠
       Add_Bias_2p5D.forward_params.length ∧
     Add_Bias_2p5D.backward_slots_add.length ≠
       Add_Bias_2p5D.forward_params.length ∧
     Add_Bias_2p5D.backward_slots_skip.length ≠
       Add_Bias_2p5D.backward_slots_add.length) ∧
    (_LayerNorm_2p5D.forward_params.length = 5 ∧
     _LayerNorm_2p5D.backward_slots.length = 7 ∧
     _LayerNorm_2p5D.backward_slots.length ≠
       _LayerNorm_2p5D.forward_params.length) ∧
    (AllGatherLast.backward_slots.length =
       AllGatherLast.forward_params.length) ∧
    (SplitFirst.backward_slots.length = SplitFirst.forward_params.length) := by
  decide

/-- C7: after the forward of Add_Bias_2p5D every rank in a column group
holds an identical bias tile equal to the bias held by the rank at row
coordinate 0 (on both the skip and the add path); after backward only the
row-0 rank returns the reduced (summed) gradient while every other rank
returns exactly zero (on both paths). -/
theorem claim_C7 (d b n : ℕ) [NeZero d] (bias : Fin d → Fin b → ℤ)
    (input : Fin d → Matrix (Fin n) (Fin b) ℤ)
    (grads_skip : Fin d → Fin b → ℤ)
    (grads_add : Fin d → Matrix (Fin n) (Fin b) ℤ) :
    (∀ r : Fin d, Add_Bias_2p5D.bias_temp bias r = bias 0) ∧
    (∀ r : Fin d, Add_Bias_2p5D.forward_skip bias r = bias 0) ∧
    (∀ r : Fin d, Add_Bias_2p5D.forward_add input bias r =
        Matrix.of fun x y => input r x y + bias 0 y) ∧
    (Add_Bias_2p5D.backward_skip_biasGrad grads_skip 0 =
        ∑ j : Fin d, grads_skip j) ∧
    (∀ r : Fin d, r ≠ 0 →
        Add_Bias_2p5D.backward_skip_biasGrad grads_skip r = 0) ∧
    (Add_Bias_2p5D.backward_add_biasGrad grads_add 0 =
        ∑ j : Fin d, Add_Bias_2p5D.colSum (grads_add j)) ∧
    (∀ r : Fin d, r ≠ 0 →
        Add_Bias_2p5D.backward_add_biasGrad grads_add r = 0) := by
  refine ⟨fun r => ?_, fun r => ?_, fun r => ?_, ?_, fun r hr => ?_, ?_,
    fun r hr => ?_⟩
  · simp [Add_Bias_2p5D.bias_temp, broadcastFrom]
  · simp [Add_Bias_2p5D.forward_skip, Add_Bias_2p5D.bias_temp, broadcastFrom]
  · simp [Add_Bias_2p5D.forward_add, Add_Bias_2p5D.bias_temp, broadcastFrom]
  · simp [Add_Bias_2p5D.backward_skip_biasGrad, Add_Bias_2p5D.reduce_input_skip]
  · simp [Add_Bias_2p5D.backward_skip_biasGrad, hr]
  · simp [Add_Bias_2p5D.backward_add_biasGrad, Add_Bias_2p5D.reduce_input_add]
  · simp [Add_Bias_2p5D.backward_add_biasGrad, hr]

/-- Witness for C7 on a column group of two ranks with concrete data. -/
theorem claim_C7_witness :
    Add_Bias_2p5D.bias_temp demoBias 1 = demoBias 0 ∧
    Add_Bias_2p5D.backward_skip_biasGrad demoVecGrads 1 = 0 :=
  ⟨(claim_C7 2 1 1 demoBias (fun _ => 0) demoVecGrads (fun _ => 0)).1 1,
   (claim_C7 2 1 1 demoBias (fun _ => 0) demoVecGrads
      (fun _ => 0)).2.2.2.2.1 1 (by decide)⟩

/-- C8 counterexample: the claim says the quantity reduced in backward is
the output gradient itself when the add was performed; but on the add path
the code reduces torch.sum(output_grad, dim=tuple(range(ndim-1))), whose
shape for an output gradient of shape [2, 3] is [3], not [2, 3] — the
reduced tensor is not the output gradient. -/
theorem claim_C8_counterexample :
    Add_Bias_2p5D.reduce_shape_add [2, 3] ≠ [2, 3] := by
  decide

/-- C8 (amended): in the backward of Add_Bias_2p5D, the quantity reduced
into the row-0 rank's address within the column group is the output
gradient itself when the add was SKIPPED in forward, and the column-sum
(the sum over all leading dimensions) of the output gradient when the add
was PERFORMED; and when the add was not skipped, the gradient returned for
the input argument is the output gradient passed through unchanged. -/
theorem claim_C8 :
    (∀ (b : ℕ) (output_grad : Fin b → ℤ),
       Add_Bias_2p5D.reduce_input_skip output_grad = output_grad) ∧
    (∀ (n b : ℕ) (output_grad : Matrix (Fin n) (Fin b) ℤ),
       Add_Bias_2p5D.reduce_input_add output_grad =
         Add_Bias_2p5D.colSum output_grad) ∧
    (∀ (d n b : ℕ) (output_grad : Fin d → Matrix (Fin n) (Fin b) ℤ)
       (r : Fin d),
       Add_Bias_2p5D.backward_add_inputGrad output_grad r = output_grad r) ∧
    (∀ col_rank dep_rank tesseract_dim data_parallel_rank
       pipeline_parallel_rank pipeline_parallel_size tensor_parallel_size : ℕ,
       Add_Bias_2p5D.dst_rank_skip col_rank dep_rank tesseract_dim
           data_parallel_rank pipeline_parallel_rank pipeline_parallel_size
           tensor_parallel_size =
         gridGlobalRank 0 col_rank dep_rank tesseract_dim data_parallel_rank
           pipeline_parallel_rank pipeline_parallel_size
           tensor_parallel_size ∧
       Add_Bias_2p5D.dst_rank_add col_rank dep_rank tesseract_dim
           data_parallel_rank pipeline_parallel_rank pipeline_parallel_size
           tensor_parallel_size =
         gridGlobalRank 0 col_rank dep_rank tesseract_dim data_parallel_rank
           pipeline_parallel_rank pipeline_parallel_size
           tensor_parallel_size) := by
  refine ⟨fun bW gW => rfl, fun nX bX gX => rfl, fun dY nY bY GY rY => rfl,
    fun cc dep td dp pp pps tps => ⟨?_, ?_⟩⟩ <;>
    simp [Add_Bias_2p5D.dst_rank_skip, Add_Bias_2p5D.dst_rank_add,
      gridGlobalRank]

/-- C9: the forward of _LayerNorm_2p5D returns (input − E_x) · Var_x, and
its backward returns grad_in = Var_x · (grad_out − output · mean_term −
sum_term), where sum_term is the last-dimension sum of grad_out all-reduced
across the row group and divided by the full (ungathered) hidden size, and
mean_term is the last-dimension sum of grad_out · output all-reduced across
the row group and divided by the same hidden size. -/
theorem claim_C9 :
    (∀ (nh : ℕ) (input : Fin nh → ℚ) (E_x Var_x : ℚ) (k : Fin nh),
       _LayerNorm_2p5D.forward input E_x Var_x k = (input k - E_x) * Var_x) ∧
    (∀ (d nh hidden_size : ℕ) (Var_x : ℚ)
       (x output_grad : Fin d → Fin nh → ℚ) (j : Fin d) (k : Fin nh),
       _LayerNorm_2p5D.backward hidden_size Var_x x output_grad j k =
         Var_x * (output_grad j k
           - x j k * ((∑ j2 : Fin d, ∑ k2 : Fin nh,
                output_grad j2 k2 * x j2 k2) / (hidden_size : ℚ))
           - (∑ j2 : Fin d, ∑ k2 : Fin nh, output_grad j2 k2) /
               (hidden_size : ℚ))) := by
  refine ⟨fun nh input Ex Vx k => rfl, fun d nh h Vx x g j k => ?_⟩
  unfold _LayerNorm_2p5D.backward
  ring

/-- C10: for every input tensor whose number of dimensions is not exactly
3, the forward of AllGatherLast fails before issuing the all-gather (the
communication trace is empty), because the axis-alignment permutation is
hardwired to permute(2, 0, 1); for 3-D inputs it succeeds, issues the
all-gather, and the result shape is the input shape with the trailing
dimension multiplied by tesseract_dim. -/
theorem claim_C10 :
    ∀ (inputs_shape : List ℕ) (tesseract_dim : ℕ),
      (inputs_shape.length ≠ 3 →
        (∃ e, (AllGatherLast.run inputs_shape tesseract_dim).1 =
            Except.error e) ∧
        (AllGatherLast.run inputs_shape tesseract_dim).2 = []) ∧
      (inputs_shape.length = 3 →
        (AllGatherLast.run inputs_shape tesseract_dim).1 =
          Except.ok [inputs_shape.getD 0 0, inputs_shape.getD 1 0,
            tesseract_dim * inputs_shape.getD 2 0] ∧
        (AllGatherLast.run inputs_shape tesseract_dim).2 =
          [CommOp.all_gather]) := by
  intro s td
  constructor
  · intro hne
    by_cases h0 : s.length = 0
    · rw [List.length_eq_zero] at h0
      subst h0
      exact ⟨⟨"Dimension out of range", rfl⟩, rfl⟩
    · have hperm : permuteDims s [2, 0, 1] = Option.none := by
        unfold permuteDims
        rw [if_neg]
        intro hcon
        exact hne hcon.1.symm
      constructor
      · refine ⟨"number of dims do not match in permute", ?_⟩
        simp only [AllGatherLast.run, if_neg h0, hperm]
      · simp only [AllGatherLast.run, if_neg h0, hperm]
  · intro h3
    obtain ⟨a, b, c, rfl⟩ := List.length_eq_three.mp h3
    constructor
    · simp [AllGatherLast.run, permuteDims, negIdx]
    · simp [AllGatherLast.run, permuteDims, negIdx]

/-- Witness for C10: a 2-D input fails with no communication; a 3-D input
succeeds, communicates, and widens the trailing axis. -/
theorem claim_C10_witness :
    ((∃ e, (AllGatherLast.run [2, 3] 2).1 = Except.error e) ∧
      (AllGatherLast.run [2, 3] 2).2 = []) ∧
    ((AllGatherLast.run [4, 5, 6] 2).1 = Except.ok [4, 5, 12] ∧
      (AllGatherLast.run [4, 5, 6] 2).2 = [CommOp.all_gather]) :=
  ⟨(claim_C10 [2, 3] 2).1 (by decide), (claim_C10 [4, 5, 6] 2).2 rfl⟩
